import Mathlib

/-!
Verification of the data-state engine of `src/widgets/mod.rs` (the "bottom"
terminal telemetry dashboard) against its design specification.

Modelling conventions:
* Monotonic instants (`std::time::Instant`) are natural numbers of
  milliseconds; `now.duration_since(t).as_secs()` is `(now - t) / 1000` with
  truncating (floor) division and saturating subtraction, matching `Duration`
  truncation in `as_secs` and the saturating behaviour of `duration_since`.
* `Result<T, heim::Error>` becomes `Option`: `Ok v ↦ some v`, `Err _ ↦ none`
  (the error payload is never inspected by this code).
* Rust `Vec<T>` becomes `List`, with `push` appending on the right.
* The entry types of the timed domains (`cpu::CPUPackage`, `mem::MemData`,
  `network::NetworkData`, `disks::IOPackage`) each expose the one field this
  module reads, `instant`; their remaining payload is an abstract type
  parameter.  The singleton domains (process list, disk-usage list,
  temperature list) are abstract types that are set wholesale.
-/

namespace Bottom

/-- A timestamped entry of a timed metric domain: the `instant` field read by
`update_data`, plus the rest of the harvested record, abstracted. -/
structure Sample (γ : Type) where
  instant : Nat
  payload : γ
deriving DecidableEq, Repr

/-- `set_if_valid` (mod.rs lines 20-24): on `Ok`, overwrite the slot with a
clone of the result; on `Err`, leave it untouched. -/
def set_if_valid {T : Type} (result : Option T) (value_to_set : T) : T :=
  match result with
  | some r => r
  | none => value_to_set

/-- `push_if_valid` (mod.rs lines 26-30): on `Ok`, push a clone of the result
onto the end of the vector; on `Err`, leave the vector untouched. -/
def push_if_valid {T : Type} (result : Option T) (vector_to_push : List T) : List T :=
  match result with
  | some r => vector_to_push ++ [r]
  | none => vector_to_push

/-- One stale-entry filter pass of `update_data` (mod.rs lines 101-148):
keep an entry iff `current_instant.duration_since(entry.instant).as_secs()
<= stale_max_seconds`, i.e. iff its age truncated to whole seconds is at
most the retention setting. -/
def prune {γ : Type} (current_instant stale_max_seconds : Nat)
    (l : List (Sample γ)) : List (Sample γ) :=
  l.filter fun entry => (current_instant - entry.instant) / 1000 ≤ stale_max_seconds

/-- The `Data` aggregate (mod.rs lines 32-43).  Type parameters: `C` the
`CPUPackage` payload, `J` the `IOPackage` payload, `M` the `MemData` payload,
`N` the `NetworkData` payload, `T` the temperature list, `P` the process
list, `D` the disk list.  The fields `list_of_io_entries` and
`list_of_physical_io_entries` model the source fields `list_of_io` and
`list_of_physical_io` (suffix added for lexical reasons only). -/
structure Data (C J M N T P D : Type) where
  list_of_cpu_packages : List (Sample C)
  list_of_io_entries : List (Sample J)
  list_of_physical_io_entries : List (Sample J)
  memory : List (Sample M)
  swap : List (Sample M)
  list_of_temperature : T
  network : List (Sample N)
  list_of_processes : P
  list_of_disks : D
deriving DecidableEq

/-- The outcome of the nine harvester calls of one `update_data` cycle
(mod.rs lines 83-97), each `Ok` payload already timestamped where the domain
is timed.  `none` models a harvester returning `Err`. -/
structure HarvestResults (C J M N T P D : Type) where
  network : Option (Sample N)
  cpu : Option (Sample C)
  memory : Option (Sample M)
  swap : Option (Sample M)
  processes : Option P
  disks : Option D
  io_logical : Option (Sample J)
  io_physical : Option (Sample J)
  temperature : Option T
deriving DecidableEq

variable {C J M N T P D : Type}

/-- The merge phase of `update_data` (mod.rs lines 83-97): each timed domain
gets `push_if_valid`, each singleton domain gets `set_if_valid`, in source
order. -/
def mergeData (d : Data C J M N T P D) (r : HarvestResults C J M N T P D) :
    Data C J M N T P D where
  network := push_if_valid r.network d.network
  list_of_cpu_packages := push_if_valid r.cpu d.list_of_cpu_packages
  memory := push_if_valid r.memory d.memory
  swap := push_if_valid r.swap d.swap
  list_of_processes := set_if_valid r.processes d.list_of_processes
  list_of_disks := set_if_valid r.disks d.list_of_disks
  list_of_io_entries := push_if_valid r.io_logical d.list_of_io_entries
  list_of_physical_io_entries := push_if_valid r.io_physical d.list_of_physical_io_entries
  list_of_temperature := set_if_valid r.temperature d.list_of_temperature

/-- The prune phase of `update_data` (mod.rs lines 101-148): the six timed
domains are filtered against one shared `current_instant`; the three
singleton domains are not touched. -/
def pruneData (current_instant stale_max_seconds : Nat)
    (d : Data C J M N T P D) : Data C J M N T P D :=
  { d with
    list_of_cpu_packages := prune current_instant stale_max_seconds d.list_of_cpu_packages
    memory := prune current_instant stale_max_seconds d.memory
    swap := prune current_instant stale_max_seconds d.swap
    network := prune current_instant stale_max_seconds d.network
    list_of_io_entries := prune current_instant stale_max_seconds d.list_of_io_entries
    list_of_physical_io_entries :=
      prune current_instant stale_max_seconds d.list_of_physical_io_entries }

/-- `DataState::update_data` (mod.rs lines 77-151) acting on the stored
`Data`: first the merge phase over this cycle's harvest results, then the
prune phase.  `current_instant` models the `std::time::Instant::now()` of
line 101: it is sampled AFTER the harvesters have run and their results have
been merged, so on the monotonic clock it is at least every instant sampled
earlier in the cycle (including the instants inside this cycle's samples). -/
def update_data (stale_max_seconds : Nat) (d : Data C J M N T P D)
    (r : HarvestResults C J M N T P D) (current_instant : Nat) :
    Data C J M N T P D :=
  pruneData current_instant stale_max_seconds (mergeData d r)

/-- The process-table sort keys, as used by `App::on_key` (the defining
enum lives in `widgets/processes.rs`; its four variants are fixed by the
uses in mod.rs lines 173-207 and the spec's `field ∈ {CPU, MEM, PID, NAME}`). -/
inductive ProcessSorting where
  | CPU
  | MEM
  | PID
  | NAME
deriving DecidableEq, Repr

/-- The `App` interaction state (mod.rs lines 11-18). -/
structure App where
  title : String
  should_quit : Bool
  process_sorting_type : ProcessSorting
  process_sorting_reverse : Bool
  to_be_resorted : Bool
deriving DecidableEq, Repr

/-- `App::new` (mod.rs lines 155-163). -/
def App.new (title : String) : App where
  title := title
  process_sorting_type := ProcessSorting.CPU
  should_quit := false
  process_sorting_reverse := true
  to_be_resorted := false

/-- `App::on_left` (mod.rs lines 216-217): empty body. -/
def App.on_left (a : App) : App := a

/-- `App::on_right` (mod.rs lines 219-220): empty body. -/
def App.on_right (a : App) : App := a

/-- `App::on_up` (mod.rs lines 222-223): empty body. -/
def App.on_up (a : App) : App := a

/-- `App::on_down` (mod.rs lines 225-226): empty body. -/
def App.on_down (a : App) : App := a

/-- `App::on_key` (mod.rs lines 165-214). -/
def App.on_key (a : App) (c : Char) : App :=
  match c with
  | 'q' => { a with should_quit := true }
  | 'h' => a.on_right
  | 'j' => a.on_down
  | 'k' => a.on_up
  | 'l' => a.on_left
  | 'c' =>
    match a.process_sorting_type with
    | ProcessSorting.CPU =>
      { a with process_sorting_reverse := !a.process_sorting_reverse, to_be_resorted := true }
    | _ =>
      { a with process_sorting_type := ProcessSorting.CPU,
               process_sorting_reverse := true, to_be_resorted := true }
  | 'm' =>
    match a.process_sorting_type with
    | ProcessSorting.MEM =>
      { a with process_sorting_reverse := !a.process_sorting_reverse, to_be_resorted := true }
    | _ =>
      { a with process_sorting_type := ProcessSorting.MEM,
               process_sorting_reverse := true, to_be_resorted := true }
  | 'p' =>
    match a.process_sorting_type with
    | ProcessSorting.PID =>
      { a with process_sorting_reverse := !a.process_sorting_reverse, to_be_resorted := true }
    | _ =>
      { a with process_sorting_type := ProcessSorting.PID,
               process_sorting_reverse := false, to_be_resorted := true }
  | 'n' =>
    match a.process_sorting_type with
    | ProcessSorting.NAME =>
      { a with process_sorting_reverse := !a.process_sorting_reverse, to_be_resorted := true }
    | _ =>
      { a with process_sorting_type := ProcessSorting.NAME,
               process_sorting_reverse := false, to_be_resorted := true }
  | _ => a

/-- The key character issuing each sort command (mod.rs match arms
`'c' | 'm' | 'p' | 'n'`). -/
def sort_key_char : ProcessSorting → Char
  | ProcessSorting.CPU => 'c'
  | ProcessSorting.MEM => 'm'
  | ProcessSorting.PID => 'p'
  | ProcessSorting.NAME => 'n'

/-- Each sort key's default direction when newly selected (mod.rs lines
176-177, 186-187, 196-197, 206-207): CPU and MEM start descending
(`reverse = true`), PID and NAME start ascending (`reverse = false`). -/
def default_sort_reverse : ProcessSorting → Bool
  | ProcessSorting.CPU => true
  | ProcessSorting.MEM => true
  | ProcessSorting.PID => false
  | ProcessSorting.NAME => false

/-- Modelled from the spec: the system-wide CPU utilization of the Delta
Engine.  The computing code, `processes::get_sorted_processes_list` in
`src/widgets/processes.rs`, is not among the provided sources; per spec
§4.3 the utilization is `(N−N₀) / ((N−N₀)+(I−I₀))` clamped to `[0,1]`,
and a zero elapsed-tick delta reports the previous value (the spec's
recommended "no change" policy), never NaN or infinity.  Ticks and the
previous reported fraction are rationals. -/
def cpu_utilization (prev i0 n0 i n : ℚ) : ℚ :=
  if (n - n0) + (i - i0) = 0 then prev
  else max 0 (min 1 ((n - n0) / ((n - n0) + (i - i0))))

/-- A concrete `Data` fixture over `Nat` payloads with every store empty. -/
def emptyData : Data Nat Nat Nat Nat Nat Nat Nat where
  list_of_cpu_packages := []
  list_of_io_entries := []
  list_of_physical_io_entries := []
  memory := []
  swap := []
  list_of_temperature := 0
  network := []
  list_of_processes := 0
  list_of_disks := 0

/-- A concrete `Data` fixture over `Nat` payloads with one entry per store. -/
def dataFix : Data Nat Nat Nat Nat Nat Nat Nat where
  list_of_cpu_packages := [{ instant := 0, payload := 1 }]
  list_of_io_entries := [{ instant := 0, payload := 2 }]
  list_of_physical_io_entries := [{ instant := 0, payload := 3 }]
  memory := [{ instant := 0, payload := 4 }]
  swap := [{ instant := 0, payload := 5 }]
  list_of_temperature := 10
  network := [{ instant := 0, payload := 6 }]
  list_of_processes := 11
  list_of_disks := 12

/-- A cycle in which every harvester failed. -/
def noneResults : HarvestResults Nat Nat Nat Nat Nat Nat Nat where
  network := none
  cpu := none
  memory := none
  swap := none
  processes := none
  disks := none
  io_logical := none
  io_physical := none
  temperature := none

/-- A cycle in which only the CPU harvester succeeded, with a sample taken
at instant 0. -/
def cpuOnlyResults : HarvestResults Nat Nat Nat Nat Nat Nat Nat where
  network := none
  cpu := some { instant := 0, payload := 0 }
  memory := none
  swap := none
  processes := none
  disks := none
  io_logical := none
  io_physical := none
  temperature := none

/-- A cycle with a mix of successes and failures across the domains. -/
def mixedResults : HarvestResults Nat Nat Nat Nat Nat Nat Nat where
  network := none
  cpu := some { instant := 2, payload := 3 }
  memory := some { instant := 2, payload := 4 }
  swap := none
  processes := some 5
  disks := none
  io_logical := some { instant := 2, payload := 6 }
  io_physical := none
  temperature := some 7

/-- A concrete `App` fixture: the state `App::new` produces. -/
def appFix : App where
  title := ""
  should_quit := false
  process_sorting_type := ProcessSorting.CPU
  process_sorting_reverse := true
  to_be_resorted := false

theorem mem_prune_iff {γ : Type} (current_instant stale_max_seconds : Nat)
    (l : List (Sample γ)) (e : Sample γ) :
    e ∈ prune current_instant stale_max_seconds l ↔
      e ∈ l ∧ (current_instant - e.instant) / 1000 ≤ stale_max_seconds := by
  simp [prune]

theorem prune_idem {γ : Type} (current_instant stale_max_seconds : Nat)
    (l : List (Sample γ)) :
    prune current_instant stale_max_seconds (prune current_instant stale_max_seconds l) =
      prune current_instant stale_max_seconds l := by
  simp [prune, List.filter_filter]

/-- C4: for every `TimeWindowedSeries` and every fixed pruning instant `now`
and retention `R`, the prune pass is idempotent — both for a single series
and for the whole-`Data` prune phase across all six timed domains. -/
theorem prune_pass_idempotent :
    (∀ (γ : Type) (now R : Nat) (l : List (Sample γ)),
      prune now R (prune now R l) = prune now R l) ∧
    (∀ (C J M N T P D : Type) (now R : Nat) (d : Data C J M N T P D),
      pruneData now R (pruneData now R d) = pruneData now R d) := by
  constructor
  · intro γ now R l
    exact prune_idem now R l
  · intro C J M N T P D now R d
    cases d
    simp [pruneData, prune_idem]

/-- C5: appending a successfully harvested sample (`push_if_valid` on `Ok`)
inserts it at the end of the sequence, and a prune pass yields a sublist of
the original series, hence never changes the relative order of the retained
samples. -/
theorem append_last_and_prune_sublist :
    (∀ (T : Type) (x : T) (l : List T), push_if_valid (some x) l = l ++ [x]) ∧
    (∀ (γ : Type) (now R : Nat) (l : List (Sample γ)),
      List.Sublist (prune now R l) l) := by
  constructor
  · intro T x l
    rfl
  · intro γ now R l
    exact List.filter_sublist l

/-- C10: the prune pass retains a sample iff its age truncated to whole
seconds is at most the retention setting; in particular a sample whose
exact age is 60.6 s survives a prune with retention 60. -/
theorem prune_retains_iff_truncated_age :
    (∀ (γ : Type) (now R : Nat) (l : List (Sample γ)) (e : Sample γ),
      e ∈ prune now R l ↔ e ∈ l ∧ (now - e.instant) / 1000 ≤ R) ∧
    prune 60700 60 [({ instant := 100, payload := 0 } : Sample Nat)] =
      [{ instant := 100, payload := 0 }] := by
  constructor
  · intro γ now R l e
    exact mem_prune_iff now R l e
  · rfl

/-- C2 counterexample: with retention `R = 60` s and pruning instant
`now = 60500` ms, a sample timestamped 0 survives the prune pass (its
truncated age is `60500 / 1000 = 60 ≤ 60`) even though its exact age,
`now − timestamp = 60500` ms, exceeds `R = 60000` ms.  So it is not true
that every remaining sample satisfies `now − timestamp ≤ R`. -/
theorem prune_age_bound_counterexample :
    prune 60500 60 [({ instant := 0, payload := 0 } : Sample Nat)] =
      [{ instant := 0, payload := 0 }] ∧
    60 * 1000 < 60500 - ({ instant := 0, payload := 0 } : Sample Nat).instant := by
  constructor
  · rfl
  · decide

/-- C2 (amended): after `update_data`'s prune pass with retention `R` and
pruning instant `now`, every sample remaining in every timed domain (CPU
packages, memory, swap, network, logical IO, physical IO) satisfies
`(now − timestamp) / 1000 ≤ R`: its age truncated to whole seconds is at
most `R`, equivalently `now − timestamp < (R + 1)` seconds. -/
theorem update_data_age_invariant (C J M N T P D : Type)
    (stale_max_seconds : Nat) (d : Data C J M N T P D)
    (r : HarvestResults C J M N T P D) (current_instant : Nat) :
    (∀ e, e ∈ (update_data stale_max_seconds d r current_instant).list_of_cpu_packages →
      (current_instant - e.instant) / 1000 ≤ stale_max_seconds) ∧
    (∀ e, e ∈ (update_data stale_max_seconds d r current_instant).memory →
      (current_instant - e.instant) / 1000 ≤ stale_max_seconds) ∧
    (∀ e, e ∈ (update_data stale_max_seconds d r current_instant).swap →
      (current_instant - e.instant) / 1000 ≤ stale_max_seconds) ∧
    (∀ e, e ∈ (update_data stale_max_seconds d r current_instant).network →
      (current_instant - e.instant) / 1000 ≤ stale_max_seconds) ∧
    (∀ e, e ∈ (update_data stale_max_seconds d r current_instant).list_of_io_entries →
      (current_instant - e.instant) / 1000 ≤ stale_max_seconds) ∧
    (∀ e, e ∈ (update_data stale_max_seconds d r current_instant).list_of_physical_io_entries →
      (current_instant - e.instant) / 1000 ≤ stale_max_seconds) := by
  refine ⟨?_, ?_, ?_, ?_, ?_, ?_⟩ <;> intro e he <;>
    exact ((mem_prune_iff _ _ _ _).mp he).2

/-- Witness for the amended C2 at a concrete cycle: the memory sample kept
at instant 0 with pruning instant 1000 ms and retention 60 has truncated
age `1 ≤ 60`. -/
theorem update_data_age_invariant_witness :
    (1000 - ({ instant := 0, payload := 4 } : Sample Nat).instant) / 1000 ≤ 60 :=
  (update_data_age_invariant Nat Nat Nat Nat Nat Nat Nat 60 dataFix noneResults
    1000).2.1 { instant := 0, payload := 4 } (by decide)

/-- C1: per-domain failure isolation of the merge phase.  For every cycle's
harvest results: a domain whose harvester returned `Err` has its stored
state left exactly unchanged by the merge step, while every domain whose
harvester succeeded is still appended (timed domains) or overwritten
(singleton domains) in the same cycle, regardless of the other domains'
outcomes. -/
theorem merge_failure_isolation (C J M N T P D : Type)
    (d : Data C J M N T P D) (r : HarvestResults C J M N T P D) :
    ((r.network = none → (mergeData d r).network = d.network) ∧
      (∀ s, r.network = some s → (mergeData d r).network = d.network ++ [s])) ∧
    ((r.cpu = none → (mergeData d r).list_of_cpu_packages = d.list_of_cpu_packages) ∧
      (∀ s, r.cpu = some s →
        (mergeData d r).list_of_cpu_packages = d.list_of_cpu_packages ++ [s])) ∧
    ((r.memory = none → (mergeData d r).memory = d.memory) ∧
      (∀ s, r.memory = some s → (mergeData d r).memory = d.memory ++ [s])) ∧
    ((r.swap = none → (mergeData d r).swap = d.swap) ∧
      (∀ s, r.swap = some s → (mergeData d r).swap = d.swap ++ [s])) ∧
    ((r.io_logical = none → (mergeData d r).list_of_io_entries = d.list_of_io_entries) ∧
      (∀ s, r.io_logical = some s →
        (mergeData d r).list_of_io_entries = d.list_of_io_entries ++ [s])) ∧
    ((r.io_physical = none →
        (mergeData d r).list_of_physical_io_entries = d.list_of_physical_io_entries) ∧
      (∀ s, r.io_physical = some s →
        (mergeData d r).list_of_physical_io_entries = d.list_of_physical_io_entries ++ [s])) ∧
    ((r.processes = none → (mergeData d r).list_of_processes = d.list_of_processes) ∧
      (∀ v, r.processes = some v → (mergeData d r).list_of_processes = v)) ∧
    ((r.disks = none → (mergeData d r).list_of_disks = d.list_of_disks) ∧
      (∀ v, r.disks = some v → (mergeData d r).list_of_disks = v)) ∧
    ((r.temperature = none → (mergeData d r).list_of_temperature = d.list_of_temperature) ∧
      (∀ v, r.temperature = some v → (mergeData d r).list_of_temperature = v)) := by
  refine ⟨⟨?_, ?_⟩, ⟨?_, ?_⟩, ⟨?_, ?_⟩, ⟨?_, ?_⟩, ⟨?_, ?_⟩, ⟨?_, ?_⟩, ⟨?_, ?_⟩,
    ⟨?_, ?_⟩, ⟨?_, ?_⟩⟩ <;> intros <;>
    simp_all [mergeData, push_if_valid, set_if_valid]

/-- Witness for C1 at a concrete mixed cycle: the failed network harvest
leaves the network series unchanged while, in the same cycle, the
successful CPU harvest appends and the successful process harvest
overwrites. -/
theorem merge_failure_isolation_witness :
    (mergeData dataFix mixedResults).network = dataFix.network ∧
    (mergeData dataFix mixedResults).list_of_cpu_packages =
      dataFix.list_of_cpu_packages ++ [{ instant := 2, payload := 3 }] ∧
    (mergeData dataFix mixedResults).list_of_processes = 5 :=
  ⟨(merge_failure_isolation Nat Nat Nat Nat Nat Nat Nat dataFix mixedResults).1.1 rfl,
    (merge_failure_isolation Nat Nat Nat Nat Nat Nat Nat dataFix mixedResults).2.1.2
      { instant := 2, payload := 3 } rfl,
    (merge_failure_isolation Nat Nat Nat Nat Nat Nat Nat dataFix
      mixedResults).2.2.2.2.2.2.1.2 5 rfl⟩

/-- C6: the singleton-slot domains (process list, disk-usage list,
temperature list) are never touched by the prune phase, and across a whole
`update_data` cycle each changes exactly when its own harvester succeeds,
in which case it is overwritten wholesale; on failure it keeps its previous
value. -/
theorem singleton_slots_frame (C J M N T P D : Type)
    (d : Data C J M N T P D) (r : HarvestResults C J M N T P D)
    (now stale : Nat) :
    ((pruneData now stale d).list_of_processes = d.list_of_processes ∧
      (pruneData now stale d).list_of_disks = d.list_of_disks ∧
      (pruneData now stale d).list_of_temperature = d.list_of_temperature) ∧
    ((r.processes = none →
        (update_data stale d r now).list_of_processes = d.list_of_processes) ∧
      (∀ v, r.processes = some v → (update_data stale d r now).list_of_processes = v)) ∧
    ((r.disks = none → (update_data stale d r now).list_of_disks = d.list_of_disks) ∧
      (∀ v, r.disks = some v → (update_data stale d r now).list_of_disks = v)) ∧
    ((r.temperature = none →
        (update_data stale d r now).list_of_temperature = d.list_of_temperature) ∧
      (∀ v, r.temperature = some v →
        (update_data stale d r now).list_of_temperature = v)) := by
  refine ⟨⟨rfl, rfl, rfl⟩, ⟨?_, ?_⟩, ⟨?_, ?_⟩, ⟨?_, ?_⟩⟩ <;> intros <;>
    simp_all [update_data, pruneData, mergeData, set_if_valid]

/-- Witness for C6 at a concrete mixed cycle: the successful process
harvest overwrites the slot, the failed disk harvest leaves that slot at
its previous value. -/
theorem singleton_slots_frame_witness :
    (update_data 60 dataFix mixedResults 0).list_of_processes = 5 ∧
    (update_data 60 dataFix mixedResults 0).list_of_disks = dataFix.list_of_disks :=
  ⟨(singleton_slots_frame Nat Nat Nat Nat Nat Nat Nat dataFix mixedResults 0 60).2.1.2 5 rfl,
    (singleton_slots_frame Nat Nat Nat Nat Nat Nat Nat dataFix mixedResults 0 60).2.2.1.1 rfl⟩

/-- C7 counterexample: the pruning instant is the `Instant::now()` of
mod.rs line 101, sampled AFTER the harvesters have run and merged — not at
cycle start.  Concretely, with retention 0, a cycle whose CPU harvester
sampled at instant 0 and whose line-101 instant is 1001 ms prunes away the
sample appended in that very cycle; had `now` been captured at cycle start
(on the monotonic clock no later than the sample's instant, so with
saturated age 0 ≤ retention) the fresh sample would have survived, as the
second conjunct shows.  Hence the `now` the code prunes with cannot be one
captured before the harvesters ran. -/
theorem prune_instant_after_harvest_counterexample :
    (update_data 0 emptyData cpuOnlyResults 1001).list_of_cpu_packages = [] ∧
    (update_data 0 emptyData cpuOnlyResults 0).list_of_cpu_packages =
      [{ instant := 0, payload := 0 }] :=
  ⟨rfl, rfl⟩

/-- C7 (amended): within one update cycle every timed domain is pruned
against one and the same `now` value — the instant captured after the
harvesters have run, immediately before the prune pass — using the
configured retention. -/
theorem update_data_single_prune_instant (C J M N T P D : Type)
    (stale : Nat) (d : Data C J M N T P D) (r : HarvestResults C J M N T P D)
    (now : Nat) :
    (update_data stale d r now).list_of_cpu_packages =
      prune now stale (mergeData d r).list_of_cpu_packages ∧
    (update_data stale d r now).memory = prune now stale (mergeData d r).memory ∧
    (update_data stale d r now).swap = prune now stale (mergeData d r).swap ∧
    (update_data stale d r now).network = prune now stale (mergeData d r).network ∧
    (update_data stale d r now).list_of_io_entries =
      prune now stale (mergeData d r).list_of_io_entries ∧
    (update_data stale d r now).list_of_physical_io_entries =
      prune now stale (mergeData d r).list_of_physical_io_entries :=
  ⟨rfl, rfl, rfl, rfl, rfl, rfl⟩

/-- C3: the sort-state machine of `App::on_key`.  For every current state
and every sort key: when the key's field equals the current field, the
transition keeps the field, toggles `process_sorting_reverse` and sets the
dirty flag; when it differs, it sets the field to the new key, sets
`process_sorting_reverse` to that key's default (true for CPU and MEM,
false for PID and NAME) and sets the dirty flag. -/
theorem on_key_sort_transition (a : App) (f : ProcessSorting) :
    (f = a.process_sorting_type →
      (a.on_key (sort_key_char f)).process_sorting_type = a.process_sorting_type ∧
      (a.on_key (sort_key_char f)).process_sorting_reverse = !a.process_sorting_reverse ∧
      (a.on_key (sort_key_char f)).to_be_resorted = true) ∧
    (f ≠ a.process_sorting_type →
      (a.on_key (sort_key_char f)).process_sorting_type = f ∧
      (a.on_key (sort_key_char f)).process_sorting_reverse = default_sort_reverse f ∧
      (a.on_key (sort_key_char f)).to_be_resorted = true) := by
  cases f <;> cases h : a.process_sorting_type <;>
    simp_all [App.on_key, sort_key_char, default_sort_reverse]

/-- Witness for C3: from the initial state (field CPU, descending), the
PID key selects PID with its default ascending direction and marks the
view dirty. -/
theorem on_key_sort_transition_witness :
    (appFix.on_key (sort_key_char ProcessSorting.PID)).process_sorting_type =
      ProcessSorting.PID ∧
    (appFix.on_key (sort_key_char ProcessSorting.PID)).process_sorting_reverse =
      default_sort_reverse ProcessSorting.PID ∧
    (appFix.on_key (sort_key_char ProcessSorting.PID)).to_be_resorted = true :=
  (on_key_sort_transition appFix ProcessSorting.PID).2 (by decide)

theorem on_key_preserves_to_be_resorted (a : App) (c : Char)
    (h : a.to_be_resorted = true) : (a.on_key c).to_be_resorted = true := by
  unfold App.on_key
  split <;>
    first
      | (split <;> simp [h])
      | simp [App.on_left, App.on_right, App.on_up, App.on_down, h]

/-- C9: the dirty flag `to_be_resorted` never transitions from true to
false under the Interaction Controller: every sequence of `on_key` commands
preserves a set flag, and each navigation handler leaves the flag exactly
as it was. -/
theorem to_be_resorted_never_cleared :
    (∀ (cs : List Char) (a : App), a.to_be_resorted = true →
      (cs.foldl App.on_key a).to_be_resorted = true) ∧
    (∀ a : App,
      (App.on_left a).to_be_resorted = a.to_be_resorted ∧
      (App.on_right a).to_be_resorted = a.to_be_resorted ∧
      (App.on_up a).to_be_resorted = a.to_be_resorted ∧
      (App.on_down a).to_be_resorted = a.to_be_resorted) := by
  constructor
  · intro cs
    induction cs with
    | nil => exact fun a h => h
    | cons c t ih => exact fun a h => ih _ (on_key_preserves_to_be_resorted a c h)
  · exact fun a => ⟨rfl, rfl, rfl, rfl⟩

/-- Witness for C9: a set dirty flag survives the concrete key sequence
quit, navigate-right, unknown key. -/
theorem to_be_resorted_never_cleared_witness :
    (List.foldl App.on_key { appFix with to_be_resorted := true }
      ['q', 'h', 'x']).to_be_resorted = true :=
  to_be_resorted_never_cleared.1 ['q', 'h', 'x']
    { appFix with to_be_resorted := true } rfl

/-- C8: for all tick counters, as long as the previously reported fraction
is itself in `[0,1]`, the system-wide CPU utilization of the Delta Engine
lies in `[0,1]`, and a zero elapsed-tick delta (denominator
`(N−N₀)+(I−I₀) = 0`) reproduces the previous value — no NaN or infinity. -/
theorem cpu_utilization_bounds (prev i0 n0 i n : ℚ)
    (h0 : 0 ≤ prev) (h1 : prev ≤ 1) :
    (0 ≤ cpu_utilization prev i0 n0 i n ∧ cpu_utilization prev i0 n0 i n ≤ 1) ∧
    ((n - n0) + (i - i0) = 0 → cpu_utilization prev i0 n0 i n = prev) := by
  unfold cpu_utilization
  split_ifs with h
  · exact ⟨⟨h0, h1⟩, fun _ => rfl⟩
  · refine ⟨⟨le_max_left 0 _, max_le (by norm_num) (min_le_left 1 _)⟩, fun hc => absurd hc h⟩

/-- Witness for C8 at concrete counters: previous value 0, idle ticks
0 → 4, non-idle ticks 0 → 6. -/
theorem cpu_utilization_bounds_witness :
    (0 ≤ cpu_utilization 0 0 0 4 6 ∧ cpu_utilization 0 0 0 4 6 ≤ 1) ∧
    (((6 : ℚ) - 0) + ((4 : ℚ) - 0) = 0 → cpu_utilization 0 0 0 4 6 = 0) :=
  cpu_utilization_bounds 0 0 0 4 6 (le_refl 0) (by norm_num)

end Bottom
